import Mathlib

/-!
Shallow embedding of the TimeReach request pipeline from src/main.py,
endpoint function find_places. The embedding covers input validation,
coordinate resolution through the Google geocoder, the OpenRouteService
isochrone call with polygon extraction, the average-radius computation,
and the Google Places request construction.

Modelling conventions:
- Python floats become rationals; Python int become integers.
- Each external HTTP service is an environment value describing its one
  response for this request: either a transport-level failure (a
  requests.RequestException, which also covers raise_for_status on a
  non-2xx HTTP status) or a parsed JSON body.
- The geodesic distance function of the geopy library is an explicit
  function parameter of the radius computation.
- Raised HTTPException(422) and HTTPException(503) become the outcomes
  http422 and http503 with their detail strings; a Python exception that
  no handler in find_places catches (KeyError, IndexError,
  ZeroDivisionError, the TypeError from a None coordinate) becomes the
  outcome http500, since FastAPI turns an unhandled exception into an
  HTTP 500 response.
- The list of outbound provider calls made by the request is returned
  alongside the outcome, in order.
-/

/-- One candidate location in the geocoder response body
(response_data results i geometry location in src/main.py line 400). -/
structure GeoLocation where
  lat : ℚ
  lng : ℚ
  deriving DecidableEq

/-- Parsed JSON body of a Google Geocoding API response: the status field
and the list of result locations. -/
structure GeocodePayload where
  status : String
  results : List GeoLocation
  deriving DecidableEq

/-- The geocoder leg of the environment: either a requests.RequestException
(unreachable provider, timeout, or raise_for_status on a non-2xx HTTP
status) or a parsed body. -/
inductive GeocodeEnv where
  | transportError
  | ok (payload : GeocodePayload)
  deriving DecidableEq

/-- The polygon geometry of an isochrone feature, reduced to the vertex
list of its outer ring as (lon, lat) pairs: this is what
poly.exterior.coords yields in src/main.py line 442, including a
duplicated closing vertex whenever the provider sent one. -/
structure OrsGeometry where
  exteriorCoords : List (ℚ × ℚ)
  deriving DecidableEq

/-- One feature of the isochrone response; geometry = none models a
feature JSON object with no geometry key. -/
structure OrsFeature where
  geometry : Option OrsGeometry
  deriving DecidableEq

/-- Parsed JSON body of an OpenRouteService isochrone response;
features = none models a body with no features key. -/
structure OrsBody where
  features : Option (List OrsFeature)
  deriving DecidableEq

/-- The isochrone leg of the environment. -/
inductive OrsEnv where
  | transportError
  | ok (body : OrsBody)
  deriving DecidableEq

/-- One place object of the Google Places response. The per-field
extraction of src/main.py lines 499 to 509 is not the subject of any
claim, so only the display name is carried. -/
structure PlaceJson where
  name : String
  deriving DecidableEq

/-- The places-search leg of the environment. -/
inductive PlacesEnv where
  | transportError
  | ok (places : List PlaceJson)
  deriving DecidableEq

/-- The request body sent to the Google Places Text Search API
(places_data in src/main.py lines 455 to 469). -/
structure PlacesRequest where
  textQuery : String
  maxResultCount : ℤ
  centerLatitude : ℚ
  centerLongitude : ℚ
  radius : ℚ
  includedType : String
  strictTypeFiltering : Bool
  deriving DecidableEq

/-- An outbound provider call made while serving the request. -/
inductive Call where
  | geocode (address : String)
  | orsIsochrone (url : String) (lon lat : Option ℚ) (rangeSeconds : ℤ)
  | placesSearch (request : PlacesRequest)
  deriving DecidableEq

/-- The HTTP-level outcome of find_places: a raised HTTPException with
status 422 or 503 and its detail string, an unhandled Python exception
(surfaced by FastAPI as HTTP 500), or the success body. -/
inductive Outcome where
  | http422 (detail : String)
  | http503 (detail : String)
  | http500
  | success (average_radius : ℤ) (places : List PlaceJson)
  deriving DecidableEq

/-- Result of the coordinate-resolution prefix of find_places
(src/main.py lines 369 to 415). -/
inductive ResolveResult where
  | http422 (detail : String)
  | http503 (detail : String)
  | http500
  | ok (lat lon : Option ℚ)
  deriving DecidableEq

/-- The query parameters of find_places. The surrounding FastAPI harness
also range-checks lat, lon and minutes and pattern-checks keyword; those
checks are outside the pipeline body and outside this embedding. -/
structure FindPlacesRequest where
  location : Option String
  lon : Option ℚ
  lat : Option ℚ
  minutes : ℤ
  mode : String
  type : String
  keyword : String
  deriving DecidableEq

/-- Environment of one request: the response of each provider and the
geodesic distance function, taking (lat, lon) pairs to meters. -/
structure Env where
  geocode : GeocodeEnv
  geodesicMeters : ℚ × ℚ → ℚ × ℚ → ℚ
  ors : OrsEnv
  gplaces : PlacesEnv

/-- Python truthiness of an optional string: None and the empty string
are falsy, every other string is truthy. -/
def pyTruthy : Option String → Bool
  | none => false
  | some s => !s.isEmpty

/-- Python int() applied to a rational: truncation toward zero. -/
def pyInt (q : ℚ) : ℤ := if 0 ≤ q then ⌊q⌋ else ⌈q⌉

/-- The list comprehension of src/main.py line 442: for each vertex p of
the outer ring (a (lon, lat) pair), the geodesic distance in meters from
(center.y, center.x) = (lat, lon) to (p 1, p 0) = (vertex lat, vertex lon). -/
def geodesicDistances (d : ℚ × ℚ → ℚ × ℚ → ℚ) (lat lon : ℚ)
    (coords : List (ℚ × ℚ)) : List ℚ :=
  coords.map fun p => d (lat, lon) (p.2, p.1)

/-- src/main.py line 443: average_radius = int(sum(distances) / len(distances)).
Returns none exactly when the vertex list is empty, modelling the
ZeroDivisionError that Python raises there (no handler catches it). -/
def averageRadius (d : ℚ × ℚ → ℚ × ℚ → ℚ) (lat lon : ℚ)
    (coords : List (ℚ × ℚ)) : Option ℤ :=
  if (geodesicDistances d lat lon coords).length = 0 then none
  else some (pyInt ((geodesicDistances d lat lon coords).sum /
    ((geodesicDistances d lat lon coords).length : ℚ)))

/-- The isochrone URL of src/main.py line 419: the mode string is
interpolated verbatim into the path. -/
def orsUrl (mode : String) : String :=
  "https://api.openrouteservice.org/v2/isochrones/" ++ mode

/-- src/main.py lines 454 to 469: the Google Places Text Search request.
textQuery is the keyword when truthy, else the type; the radius is
min(float(average_radius), 50000.0). -/
def buildPlacesRequest (lat lon : ℚ) (average_radius : ℤ)
    (typeHint keyword : String) : PlacesRequest :=
  { textQuery := if keyword.isEmpty then typeHint else keyword
    maxResultCount := 20
    centerLatitude := lat
    centerLongitude := lon
    radius := min (average_radius : ℚ) 50000
    includedType := typeHint
    strictTypeFiltering := true }

/-- The transport-mode profile strings of the TransportMode enum in
src/main.py lines 231 to 241 (CAR, HGV, BIKE, ROADBIKE, MTB, EBIKE,
WALKING, HIKING, WHEELCHAIR). The enum is declared but the mode query
parameter of find_places is a plain str, its enum annotation being
commented out in src/main.py lines 333 to 340. -/
def transportModeValues : List String :=
  ["driving-car", "driving-hgv", "cycling-regular", "cycling-road",
   "cycling-mountain", "cycling-electric", "foot-walking", "foot-hiking",
   "wheelchair"]

/-- Coordinate resolution, src/main.py lines 369 to 415. First the
missing-input check (location is None and (lat is None or lon is None)
raises HTTPException 422). Then the geocoding branch, guarded by the
truthiness test if location and (lat is None or lon is None): a
requests.RequestException becomes HTTPException 503; a payload whose
status field is not OK becomes HTTPException 422 with detail
"Geocoding error: " followed by the status (raised inside the try block,
but not caught, since the except clause only catches
requests.RequestException); a status OK payload with an empty result
list hits an IndexError that nothing catches (http500); otherwise lat
and lon are overwritten with the first result. The returned call list
records the geocoder call when the branch makes one. The 503 detail
string in the source carries an exception-specific suffix, elided here. -/
def resolveStep (location : Option String) (lat lon : Option ℚ)
    (g : GeocodeEnv) : List Call × ResolveResult :=
  if location = none ∧ (lat = none ∨ lon = none) then
    ([], .http422 "Either location name or both latitude and longitude must be provided")
  else if pyTruthy location ∧ (lat = none ∨ lon = none) then
    ([Call.geocode (location.getD "")],
      match g with
      | .transportError => .http503 "Error accessing Google Geocoding API"
      | .ok payload =>
        if payload.status = "OK" then
          match payload.results with
          | [] => .http500
          | r :: _ => .ok (some r.lat) (some r.lng)
        else .http422 ("Geocoding error: " ++ payload.status))
  else ([], .ok lat lon)

/-- The pipeline from the isochrone call on, src/main.py lines 418 to 513,
entered with the resolved optional coordinates. A transport failure of
the isochrone call becomes HTTPException 503. After a successful call,
the extraction ors_json features 0 geometry raises KeyError on a missing
features key, IndexError on an empty feature list and KeyError on a
missing geometry key; none of these is a requests.RequestException, so
they escape the try block and become http500. The radius computation then
needs concrete lat and lon: with a None coordinate, Point(lon, lat) and
the geodesic call raise an unhandled TypeError (http500); an empty vertex
list raises an unhandled ZeroDivisionError (http500). Finally the places
request is posted: a transport failure becomes HTTPException 503, and a
body yields the success response with the place list truncated to 20.
The 503 detail string of the places branch carries an exception-specific
suffix in the source, elided here. -/
def afterResolve (req : FindPlacesRequest) (env : Env) (lat lon : Option ℚ) :
    List Call × Outcome :=
  match env.ors with
  | .transportError =>
    ([Call.orsIsochrone (orsUrl req.mode) lon lat (req.minutes * 60)],
     .http503 "Error accessing OpenRouteService API")
  | .ok body =>
    match body.features with
    | none => ([Call.orsIsochrone (orsUrl req.mode) lon lat (req.minutes * 60)], .http500)
    | some [] => ([Call.orsIsochrone (orsUrl req.mode) lon lat (req.minutes * 60)], .http500)
    | some (f :: _) =>
      match f.geometry with
      | none => ([Call.orsIsochrone (orsUrl req.mode) lon lat (req.minutes * 60)], .http500)
      | some geom =>
        match lat, lon with
        | some la, some lo =>
          match averageRadius env.geodesicMeters la lo geom.exteriorCoords with
          | none => ([Call.orsIsochrone (orsUrl req.mode) lon lat (req.minutes * 60)], .http500)
          | some r =>
            match env.gplaces with
            | .transportError =>
              ([Call.orsIsochrone (orsUrl req.mode) lon lat (req.minutes * 60),
                Call.placesSearch (buildPlacesRequest la lo r req.type req.keyword)],
               .http503 "Error accessing Google Places API")
            | .ok ps =>
              ([Call.orsIsochrone (orsUrl req.mode) lon lat (req.minutes * 60),
                Call.placesSearch (buildPlacesRequest la lo r req.type req.keyword)],
               .success r (ps.take 20))
        | _, _ => ([Call.orsIsochrone (orsUrl req.mode) lon lat (req.minutes * 60)], .http500)

/-- The whole find_places body: coordinate resolution, then the isochrone,
radius and places stages, with the outbound call trace accumulated in
order. -/
def findPlaces (req : FindPlacesRequest) (env : Env) : List Call × Outcome :=
  match resolveStep req.location req.lat req.lon env.geocode with
  | (tr, .http422 d) => (tr, .http422 d)
  | (tr, .http503 d) => (tr, .http503 d)
  | (tr, .http500) => (tr, .http500)
  | (tr, .ok lat lon) =>
    let s := afterResolve req env lat lon
    (tr ++ s.1, s.2)

/-- Written from the words of the spec, for comparison with averageRadius:
the integer part of the arithmetic mean of the geodesic distances from the
origin to each vertex of the outer boundary, taken in provider order, a
duplicated closing vertex included in the average and in the divisor. -/
def specMeanRadius (d : ℚ × ℚ → ℚ × ℚ → ℚ) (lat lon : ℚ)
    (coords : List (ℚ × ℚ)) : ℤ :=
  ⌊(geodesicDistances d lat lon coords).sum / (coords.length : ℚ)⌋

/-! Helper lemmas shared by several theorems. -/

/-- When both coordinates are present, resolution takes the final else
branch: no geocoder call, coordinates passed through. -/
theorem resolveStep_some_coords (loc : Option String) (la lo : ℚ) (g : GeocodeEnv) :
    resolveStep loc (some la) (some lo) g = ([], ResolveResult.ok (some la) (some lo)) := by
  simp [resolveStep]

/-- With an empty location string and no coordinates, the missing-input
check does not fire (the string is not None) and the geocoding branch does
not fire either (the empty string is falsy), so resolution passes the
absent coordinates through. -/
theorem resolveStep_empty_string (g : GeocodeEnv) :
    resolveStep (some "") none none g = ([], ResolveResult.ok none none) := by
  have h : ("" : String).isEmpty = true := by decide
  simp [resolveStep, pyTruthy, h]

/-- The call trace of the post-resolution stages always starts with the
isochrone call, and when a places call follows it carries a request built
by buildPlacesRequest. -/
theorem afterResolve_trace (req : FindPlacesRequest) (env : Env) (lat lon : Option ℚ) :
    (afterResolve req env lat lon).1
        = [Call.orsIsochrone (orsUrl req.mode) lon lat (req.minutes * 60)] ∨
      ∃ la lo r, (afterResolve req env lat lon).1
        = [Call.orsIsochrone (orsUrl req.mode) lon lat (req.minutes * 60),
           Call.placesSearch (buildPlacesRequest la lo r req.type req.keyword)] := by
  obtain ⟨g, dm, ors, gp⟩ := env
  cases ors with
  | transportError => exact Or.inl rfl
  | ok body =>
    obtain ⟨features⟩ := body
    match features with
    | none => exact Or.inl rfl
    | some [] => exact Or.inl rfl
    | some (⟨none⟩ :: fs) => exact Or.inl rfl
    | some (⟨some geom⟩ :: fs) =>
      match lat, lon with
      | none, _ => exact Or.inl rfl
      | some la, none => exact Or.inl rfl
      | some la, some lo =>
        simp only [afterResolve]
        cases havg : averageRadius dm la lo geom.exteriorCoords with
        | none => exact Or.inl rfl
        | some r =>
          cases gp with
          | transportError => exact Or.inr ⟨la, lo, r, rfl⟩
          | ok ps => exact Or.inr ⟨la, lo, r, rfl⟩

/-- The post-resolution stages never raise HTTPException 422. -/
theorem afterResolve_ne_http422 (req : FindPlacesRequest) (env : Env)
    (lat lon : Option ℚ) (d : String) :
    (afterResolve req env lat lon).2 ≠ Outcome.http422 d := by
  obtain ⟨g, dm, ors, gp⟩ := env
  cases ors with
  | transportError => exact fun h => Outcome.noConfusion h
  | ok body =>
    obtain ⟨features⟩ := body
    match features with
    | none => exact fun h => Outcome.noConfusion h
    | some [] => exact fun h => Outcome.noConfusion h
    | some (⟨none⟩ :: fs) => exact fun h => Outcome.noConfusion h
    | some (⟨some geom⟩ :: fs) =>
      match lat, lon with
      | none, _ => exact fun h => Outcome.noConfusion h
      | some la, none => exact fun h => Outcome.noConfusion h
      | some la, some lo =>
        simp only [afterResolve]
        cases havg : averageRadius dm la lo geom.exteriorCoords with
        | none => exact fun h => Outcome.noConfusion h
        | some r =>
          cases gp with
          | transportError => exact fun h => Outcome.noConfusion h
          | ok ps => exact fun h => Outcome.noConfusion h

/-! Claim theorems. -/

/-- C1: for every non-empty vertex list returned by the isochrone
provider (and any origin and any nonnegative distance function, as a
geodesic distance is), the computed average radius equals the integer
part (floor, the values being nonnegative) of the arithmetic mean of the
distances from the origin to each vertex in provider order, duplicated
closing vertex included in both the sum and the divisor. -/
theorem C1_radius_is_int_mean (d : ℚ × ℚ → ℚ × ℚ → ℚ) (lat lon : ℚ)
    (coords : List (ℚ × ℚ)) (hne : coords ≠ [])
    (hnn : ∀ p ∈ coords, 0 ≤ d (lat, lon) (p.2, p.1)) :
    averageRadius d lat lon coords = some (specMeanRadius d lat lon coords) := by
  have hlen : (geodesicDistances d lat lon coords).length = coords.length :=
    List.length_map _ _
  have hpos : coords.length ≠ 0 := fun h => hne (List.length_eq_zero.mp h)
  have hsum : 0 ≤ (geodesicDistances d lat lon coords).sum := by
    apply List.sum_nonneg
    intro x hx
    obtain ⟨p, hp, rfl⟩ := List.mem_map.mp hx
    exact hnn p hp
  have hq : 0 ≤ (geodesicDistances d lat lon coords).sum / (coords.length : ℚ) :=
    div_nonneg hsum (by positivity)
  simp only [averageRadius, specMeanRadius, hlen, if_neg hpos]
  congr 1
  simp only [pyInt, if_pos hq]

/-- C1 witness: a concrete three-vertex ring with a duplicated closing
vertex and a constant distance function. -/
theorem C1_radius_is_int_mean_witness :
    (([((1 : ℚ), (1 : ℚ)), (2, 2), (1, 1)] : List (ℚ × ℚ)) ≠ []) ∧
    averageRadius (fun _ _ => 5) 48 2 [(1, 1), (2, 2), (1, 1)]
      = some (specMeanRadius (fun _ _ => 5) 48 2 [(1, 1), (2, 2), (1, 1)]) :=
  ⟨by decide,
   C1_radius_is_int_mean (fun _ _ => 5) 48 2 [(1, 1), (2, 2), (1, 1)]
     (by decide) (fun p _ => by norm_num)⟩

/-- C5: when both lat and lon are present, coordinate resolution returns
exactly those values unchanged and performs no geocoding call (the call
trace of the resolution step is empty), whatever the location string and
whatever the geocoder would answer. -/
theorem C5_explicit_coords_passthrough (loc : Option String) (la lo : ℚ) (g : GeocodeEnv) :
    resolveStep loc (some la) (some lo) g = ([], ResolveResult.ok (some la) (some lo)) :=
  resolveStep_some_coords loc la lo g

/-- C6: with no location string and an incomplete coordinate pair (lat
absent in the first conjunct, lon absent in the second), the pipeline
fails with HTTPException 422 and the detail string of src/main.py line
372, and the call trace is empty: no provider call is made. -/
theorem C6_missing_input_http422 (lonv latv : Option ℚ) (m : ℤ)
    (mo t k : String) (env : Env) :
    findPlaces ⟨none, lonv, none, m, mo, t, k⟩ env
      = ([], Outcome.http422
          "Either location name or both latitude and longitude must be provided") ∧
    findPlaces ⟨none, none, latv, m, mo, t, k⟩ env
      = ([], Outcome.http422
          "Either location name or both latitude and longitude must be provided") := by
  constructor <;> simp [findPlaces, resolveStep]

/-- C9: the average radius is invariant under reversal of the vertex
list: over exact arithmetic, reversing the provider order changes neither
the sum of the distances nor their count. -/
theorem C9_radius_reverse_invariant (d : ℚ × ℚ → ℚ × ℚ → ℚ) (lat lon : ℚ)
    (coords : List (ℚ × ℚ)) :
    averageRadius d lat lon coords.reverse = averageRadius d lat lon coords := by
  simp [averageRadius, geodesicDistances, List.map_reverse, List.sum_reverse]

/-- The resolution step makes at most the geocoder call. -/
theorem resolveStep_trace_shape (loc : Option String) (lat lon : Option ℚ) (g : GeocodeEnv) :
    (resolveStep loc lat lon g).1 = []
      ∨ ∃ a, (resolveStep loc lat lon g).1 = [Call.geocode a] := by
  unfold resolveStep
  split
  · exact Or.inl rfl
  · split
    · exact Or.inr ⟨_, rfl⟩
    · exact Or.inl rfl

/-- Unfolding rule of findPlaces when resolution succeeds. -/
theorem findPlaces_ok (req : FindPlacesRequest) (env : Env) (tr : List Call)
    (lat lon : Option ℚ)
    (h : resolveStep req.location req.lat req.lon env.geocode = (tr, ResolveResult.ok lat lon)) :
    findPlaces req env
      = (tr ++ (afterResolve req env lat lon).1, (afterResolve req env lat lon).2) := by
  unfold findPlaces
  rw [h]

/-- With lat still absent after resolution, the post-resolution trace is
exactly the isochrone call: the pipeline stops at the unhandled TypeError
(or earlier) and never reaches the places provider. -/
theorem afterResolve_none_lat (req : FindPlacesRequest) (env : Env) (lon : Option ℚ) :
    (afterResolve req env none lon).1
      = [Call.orsIsochrone (orsUrl req.mode) lon none (req.minutes * 60)] := by
  obtain ⟨g, dm, ors, gp⟩ := env
  cases ors with
  | transportError => rfl
  | ok body =>
    obtain ⟨features⟩ := body
    match features with
    | none => rfl
    | some [] => rfl
    | some (⟨none⟩ :: fs) => rfl
    | some (⟨some geom⟩ :: fs) => rfl

/-- Every places request appearing in a call trace of findPlaces has a
radius of at most 50000. -/
theorem findPlaces_places_radius_le (req : FindPlacesRequest) (env : Env)
    (preq : PlacesRequest)
    (hmem : Call.placesSearch preq ∈ (findPlaces req env).1) : preq.radius ≤ 50000 := by
  have htr := resolveStep_trace_shape req.location req.lat req.lon env.geocode
  unfold findPlaces at hmem
  rcases hres : resolveStep req.location req.lat req.lon env.geocode with ⟨tr, rr⟩
  rw [hres] at htr hmem
  have hnotin : Call.placesSearch preq ∉ tr := by
    rcases htr with h | ⟨a, h⟩ <;> subst h <;> simp
  cases rr with
  | http422 d => exact absurd hmem hnotin
  | http503 d => exact absurd hmem hnotin
  | http500 => exact absurd hmem hnotin
  | ok lat lon =>
    have hmem2 : Call.placesSearch preq ∈ tr ++ (afterResolve req env lat lon).1 := hmem
    rcases List.mem_append.mp hmem2 with h | h
    · exact absurd h hnotin
    · rcases afterResolve_trace req env lat lon with hsh | ⟨la, lo, r, hsh⟩
      · rw [hsh] at h
        simp at h
      · rw [hsh] at h
        simp at h
        subst h
        show min ((r : ℤ) : ℚ) 50000 ≤ 50000
        exact min_le_right _ _

/-- C2: find_places evaluated at a zero-feature or malformed isochrone
body. The extraction of the first feature geometry raises KeyError or
IndexError inside a try block whose except clause only catches
requests.RequestException, so the exception escapes and FastAPI answers
HTTP 500, not the HTTPException 503 that the documented error contract
(503 external service error, 422 invalid parameters) provides for. The
three conjuncts cover a missing features key, an empty feature list and
a first feature with no geometry key. -/
theorem C2_malformed_isochrone_http500 (g : GeocodeEnv)
    (dm : ℚ × ℚ → ℚ × ℚ → ℚ) (gp : PlacesEnv) (fs : List OrsFeature) :
    ((findPlaces ⟨none, some 2, some 48, 20, "driving-car", "restaurant", ""⟩
        ⟨g, dm, OrsEnv.ok ⟨none⟩, gp⟩).2 = Outcome.http500) ∧
    ((findPlaces ⟨none, some 2, some 48, 20, "driving-car", "restaurant", ""⟩
        ⟨g, dm, OrsEnv.ok ⟨some []⟩, gp⟩).2 = Outcome.http500) ∧
    ((findPlaces ⟨none, some 2, some 48, 20, "driving-car", "restaurant", ""⟩
        ⟨g, dm, OrsEnv.ok ⟨some (⟨none⟩ :: fs)⟩, gp⟩).2 = Outcome.http500) ∧
    (∀ d, Outcome.http500 ≠ Outcome.http503 d) := by
  refine ⟨?_, ?_, ?_, fun d h => Outcome.noConfusion h⟩ <;>
    simp [findPlaces, resolveStep_some_coords, afterResolve]

/-- C3: the division by the vertex count in src/main.py line 443 is not
guarded. averageRadius of an empty vertex list is the ZeroDivisionError
marker, and on a polygon whose outer ring has zero vertices find_places
ends in the unhandled-exception outcome (HTTP 500): the zero-vertex case
is reached, not handled. -/
theorem C3_zero_vertices_division_reached (g : GeocodeEnv)
    (dm : ℚ × ℚ → ℚ × ℚ → ℚ) (gp : PlacesEnv) (fs : List OrsFeature) (la lo : ℚ) :
    averageRadius dm la lo [] = none ∧
    (findPlaces ⟨none, some 2, some 48, 20, "driving-car", "restaurant", ""⟩
        ⟨g, dm, OrsEnv.ok ⟨some (⟨some ⟨[]⟩⟩ :: fs)⟩, gp⟩).2 = Outcome.http500 := by
  constructor
  · rfl
  · simp [findPlaces, resolveStep_some_coords, afterResolve, averageRadius,
      geodesicDistances]

/-- C4: the radius field of the places request is min(average_radius, 50000):
it never exceeds 50000, an average radius of 73000 is sent as exactly
50000, and every places request appearing in any call trace of
findPlaces respects the cap. -/
theorem C4_places_radius_capped (la lo : ℚ) (r : ℤ) (t k : String)
    (req : FindPlacesRequest) (env : Env) (preq : PlacesRequest) :
    ((buildPlacesRequest la lo r t k).radius = min (r : ℚ) 50000) ∧
    ((buildPlacesRequest la lo r t k).radius ≤ 50000) ∧
    ((buildPlacesRequest la lo 73000 t k).radius = 50000) ∧
    (Call.placesSearch preq ∈ (findPlaces req env).1 → preq.radius ≤ 50000) :=
  ⟨rfl, min_le_right _ _,
   by show min ((73000 : ℤ) : ℚ) 50000 = 50000; norm_num,
   findPlaces_places_radius_le req env preq⟩

/-- C4 witness: a complete successful run whose trace contains the places
call, with the capped radius evaluated concretely. -/
theorem C4_places_radius_capped_witness :
    (Call.placesSearch (buildPlacesRequest 48 2 7 "restaurant" "")
        ∈ (findPlaces ⟨none, some 2, some 48, 20, "driving-car", "restaurant", ""⟩
            ⟨GeocodeEnv.transportError, fun _ _ => 7,
             OrsEnv.ok ⟨some [⟨some ⟨[(1, 2)]⟩⟩]⟩, PlacesEnv.ok []⟩).1) ∧
    (buildPlacesRequest 48 2 7 "restaurant" "").radius ≤ 50000 := by
  have havg : averageRadius (fun _ _ => 7) 48 2 [(1, 2)] = some 7 := by
    norm_num [averageRadius, geodesicDistances, pyInt]
  have hmem : Call.placesSearch (buildPlacesRequest 48 2 7 "restaurant" "")
      ∈ (findPlaces ⟨none, some 2, some 48, 20, "driving-car", "restaurant", ""⟩
          ⟨GeocodeEnv.transportError, fun _ _ => 7,
           OrsEnv.ok ⟨some [⟨some ⟨[(1, 2)]⟩⟩]⟩, PlacesEnv.ok []⟩).1 := by
    simp [findPlaces, resolveStep, afterResolve, havg]
  exact ⟨hmem,
    (C4_places_radius_capped 48 2 7 "restaurant" ""
      ⟨none, some 2, some 48, 20, "driving-car", "restaurant", ""⟩
      ⟨GeocodeEnv.transportError, fun _ _ => 7,
       OrsEnv.ok ⟨some [⟨some ⟨[(1, 2)]⟩⟩]⟩, PlacesEnv.ok []⟩
      (buildPlacesRequest 48 2 7 "restaurant" "")).2.2.2 hmem⟩

/-- C7 counterexample: the mode string spaceship is not one of the
TransportMode profile values, yet the request is not rejected with
HTTPException 422: it is forwarded, the mode interpolated verbatim into
the isochrone URL, and the outcome here is the 503 of the failing
isochrone call, which is not a 422 for any detail string. -/
theorem C7_counterexample :
    ("spaceship" ∉ transportModeValues) ∧
    findPlaces ⟨none, some 2, some 48, 20, "spaceship", "restaurant", ""⟩
        ⟨GeocodeEnv.transportError, fun _ _ => 0, OrsEnv.transportError,
         PlacesEnv.transportError⟩
      = ([Call.orsIsochrone "https://api.openrouteservice.org/v2/isochrones/spaceship"
            (some 2) (some 48) 1200],
         Outcome.http503 "Error accessing OpenRouteService API") ∧
    (∀ d, Outcome.http503 "Error accessing OpenRouteService API" ≠ Outcome.http422 d) :=
  ⟨by decide, by decide, fun d h => Outcome.noConfusion h⟩

/-- C7 amended: the mode parameter is not validated. For every mode
string whatsoever (member of the transport-mode enum or not), a request
with coordinates present proceeds to the isochrone provider with the
mode interpolated verbatim into the URL, and the outcome is never an
HTTPException 422. -/
theorem C7_mode_not_validated (loc : Option String) (mode : String) (la lo : ℚ)
    (m : ℤ) (t k : String) (env : Env) :
    (∃ rest, (findPlaces ⟨loc, some lo, some la, m, mode, t, k⟩ env).1
        = Call.orsIsochrone (orsUrl mode) (some lo) (some la) (m * 60) :: rest) ∧
    (∀ d, (findPlaces ⟨loc, some lo, some la, m, mode, t, k⟩ env).2
        ≠ Outcome.http422 d) := by
  have hfp := findPlaces_ok ⟨loc, some lo, some la, m, mode, t, k⟩ env [] (some la) (some lo)
    (resolveStep_some_coords loc la lo env.geocode)
  rw [hfp]
  constructor
  · rcases afterResolve_trace ⟨loc, some lo, some la, m, mode, t, k⟩ env (some la) (some lo)
        with h | ⟨la2, lo2, r, h⟩
    · exact ⟨[], by rw [List.nil_append, h]⟩
    · exact ⟨[Call.placesSearch (buildPlacesRequest la2 lo2 r t k)],
        by rw [List.nil_append, h]⟩
  · intro d
    exact afterResolve_ne_http422 ⟨loc, some lo, some la, m, mode, t, k⟩ env
      (some la) (some lo) d

/-- C8 counterexample: a geocoder response with HTTP success but payload
status REQUEST_DENIED makes resolution raise HTTPException 422 with
detail Geocoding error: REQUEST_DENIED (src/main.py lines 394 to 399),
not the 503 the claim states; a 422 result is not a 503 for any detail
string. -/
theorem C8_counterexample :
    resolveStep (some "Paris") none none (GeocodeEnv.ok ⟨"REQUEST_DENIED", []⟩)
      = ([Call.geocode "Paris"],
         ResolveResult.http422 "Geocoding error: REQUEST_DENIED") ∧
    (∀ d, ResolveResult.http422 "Geocoding error: REQUEST_DENIED"
        ≠ ResolveResult.http503 d) :=
  ⟨by decide, fun d h => ResolveResult.noConfusion h⟩

/-- C8 amended: a geocoder payload with any non-OK status (REQUEST_DENIED,
OVER_QUERY_LIMIT, ZERO_RESULTS alike) yields HTTPException 422 with
detail Geocoding error: followed by the status; only a transport-level
failure of the geocoder call (requests.RequestException, which includes a
non-2xx HTTP status through raise_for_status) yields HTTPException 503. -/
theorem C8_geocode_status_yields_422 (loc : String) (hloc : loc.isEmpty = false)
    (s : String) (hs : s ≠ "OK") (results : List GeoLocation) :
    (resolveStep (some loc) none none (GeocodeEnv.ok ⟨s, results⟩)
      = ([Call.geocode loc], ResolveResult.http422 ("Geocoding error: " ++ s))) ∧
    (resolveStep (some loc) none none GeocodeEnv.transportError
      = ([Call.geocode loc],
         ResolveResult.http503 "Error accessing Google Geocoding API")) := by
  constructor <;> simp [resolveStep, pyTruthy, hloc, hs]

/-- C8 amended witness. -/
theorem C8_geocode_status_yields_422_witness :
    ("Paris".isEmpty = false) ∧ ("REQUEST_DENIED" ≠ "OK") ∧
    resolveStep (some "Paris") none none (GeocodeEnv.ok ⟨"REQUEST_DENIED", []⟩)
      = ([Call.geocode "Paris"],
         ResolveResult.http422 ("Geocoding error: " ++ "REQUEST_DENIED")) :=
  ⟨by decide, by decide,
   (C8_geocode_status_yields_422 "Paris" (by decide) "REQUEST_DENIED" (by decide) []).1⟩

/-- C10: with location supplied as the empty string and both coordinates
absent, the missing-input check does not fire (the empty string is not
None) and the geocoding branch does not fire either (the empty string is
falsy), so the pipeline proceeds to call the isochrone provider with
absent coordinates: the whole call trace is exactly the isochrone call
with none for both lon and lat, and the outcome is never an
HTTPException 422. -/
theorem C10_empty_location_reaches_isochrone (m : ℤ) (mo t k : String) (env : Env) :
    ((findPlaces ⟨some "", none, none, m, mo, t, k⟩ env).1
      = [Call.orsIsochrone (orsUrl mo) none none (m * 60)]) ∧
    (∀ d, (findPlaces ⟨some "", none, none, m, mo, t, k⟩ env).2
        ≠ Outcome.http422 d) := by
  have hfp := findPlaces_ok ⟨some "", none, none, m, mo, t, k⟩ env [] none none
    (resolveStep_empty_string env.geocode)
  rw [hfp]
  constructor
  · rw [List.nil_append]
    exact afterResolve_none_lat ⟨some "", none, none, m, mo, t, k⟩ env none
  · intro d
    exact afterResolve_ne_http422 ⟨some "", none, none, m, mo, t, k⟩ env none none d
